import Mathlib

/-!
Shallow embedding of the Coral relay server core
(`coral-server/src/lib/CoralSessionManager.ts`, `toolRoutes.ts`,
`socketHandlers.ts` and `src/types.ts`), together with theorems settling
the specification claims about it.

JavaScript `Map` objects are embedded as association lists in insertion
order: `Map.get` is `lookupAssoc`, `Map.set` is `setAssoc` (replace in
place, else append), `Map.delete` is `eraseAssoc`.  Event-emitter
emissions are embedded as explicit event lists returned next to the
updated state, in emission order.
-/

section AssocMap

variable {κ α : Type} [DecidableEq κ]

/-- `Map.get`: first binding of the key, if any. -/
def lookupAssoc : List (κ × α) → κ → Option α
  | [], _ => none
  | (k', v) :: rest, k => if k' = k then some v else lookupAssoc rest k

/-- `Map.set`: replace the binding in place if the key is present, else append. -/
def setAssoc : List (κ × α) → κ → α → List (κ × α)
  | [], k, v => [(k, v)]
  | (k', v') :: rest, k, v =>
      if k' = k then (k, v) :: rest else (k', v') :: setAssoc rest k v

/-- `Map.delete`: drop the bindings of the key. -/
def eraseAssoc (m : List (κ × α)) (k : κ) : List (κ × α) :=
  m.filter (fun p => decide (p.1 ≠ k))

end AssocMap

/-- `Message` from `src/types.ts`. -/
structure Message where
  id : String
  threadId : String
  senderId : String
  content : String
  timestamp : String
  type : Option String
deriving DecidableEq

/-- The thread record stored in `CoralSession.threads`: `Thread` from
`src/types.ts` minus the optional `messages` field, which the handler strips
before storing (`threadWithoutMessages`). -/
structure Thread where
  id : String
  name : String
  participants : List String
  summary : Option String
  creatorId : String
  isClosed : Bool
  unread : Option Nat
deriving DecidableEq

/-- A thread as carried by a `ThreadList` frame: `Thread` from `src/types.ts`
with its optional `messages` payload. -/
structure WireThread where
  id : String
  name : String
  participants : List String
  summary : Option String
  creatorId : String
  isClosed : Bool
  unread : Option Nat
  messages : Option (List Message)
deriving DecidableEq

/-- `Agent` from `src/types.ts`.  `type` is `"local"` or `"remote"`;
`options` is a free-form record, embedded as string pairs. -/
structure Agent where
  id : Option String
  type : String
  blocking : Bool
  agentType : String
  options : List (String × String)
  tools : Option (List String)
  systemPrompt : Option String
  state : Option String
deriving DecidableEq

/-- `AgentRequest` from `src/types.ts`.  The `Date` timestamp is embedded
as a natural number of milliseconds. -/
structure AgentRequest where
  id : String
  sessionId : String
  agentId : String
  agentRequest : String
  userQuestion : Option String
  agentAnswer : Option String
  timestamp : Nat
deriving DecidableEq

/-- A parsed inbound frame (`CoralMessage` from `src/types.ts`): a tagged
object.  Each recognized tag carries exactly the fields the handler reads;
`unknown` covers every other tag (the handler reads nothing from those). -/
inductive CoralMessage where
  | debugAgentRegistered (id : String)
  | threadList (threads : List WireThread)
  | agentList (agents : List Agent)
  | agentStateUpdated (agentId : String) (state : String)
  | threadCreated (id : String) (name : String) (participants : List String)
      (summary : Option String) (creatorId : String) (isClosed : Bool)
      (messages : Option (List Message))
  | messageSent (threadId : String) (message : Message)
  | unknown (tag : String)
deriving DecidableEq

/-- Events emitted by a `CoralSession` (the names passed to `this.emit`). -/
inductive SessionEvent where
  | connected
  | message (data : CoralMessage)
  | error (message : String)
  | closed (code : Nat) (reason : String)
deriving DecidableEq

/-- `ws` readyState value `WebSocket.OPEN`. -/
def wsOPEN : Nat := 1

/-- The mutable state of one `CoralSession` (`CoralSessionManager.ts`,
class `CoralSession`): the `connected` flag, the socket readyState
(`none` embeds `this.socket` being absent, matching `this.socket?.readyState`),
the registered local agent id, and the three maps. -/
structure SessionState where
  sessionId : String
  connected : Bool
  readyState : Option Nat
  agentId : Option String
  agents : List (Option String × Agent)
  threads : List (String × Thread)
  messages : List (String × List Message)
deriving DecidableEq

namespace CoralSession

/-- The `ThreadList` branch of `CoralSession.handleMessage`: for each thread
in the snapshot, store its messages (or `[]`) under its id and store the
thread, stripped of `messages`, with `unread` overridden to `0`. -/
def applyThreadList (s : SessionState) (ts : List WireThread) : SessionState :=
  ts.foldl (fun st w =>
    let t : Thread :=
      { id := w.id, name := w.name, participants := w.participants,
        summary := w.summary, creatorId := w.creatorId,
        isClosed := w.isClosed, unread := some 0 }
    { st with
      messages := setAssoc st.messages w.id (w.messages.getD []),
      threads := setAssoc st.threads w.id t }) s

/-- `CoralSession.handleMessage`: emits the parsed frame as a generic
`message` event first, then dispatches on the tag, mutating only local
state.  Returns the updated state and the emitted events in order. -/
def handleMessage (s : SessionState) (data : CoralMessage) :
    SessionState × List SessionEvent :=
  let events := [SessionEvent.message data]
  match data with
  | .debugAgentRegistered id => ({ s with agentId := some id }, events)
  | .threadList ts => (applyThreadList s ts, events)
  | .agentList as =>
      (as.foldl (fun st a => { st with agents := setAssoc st.agents a.id a }) s,
       events)
  | .agentStateUpdated agentId newState =>
      match lookupAssoc s.agents (some agentId) with
      | some a =>
          let a2 := { a with state := some newState }
          ({ s with agents := setAssoc s.agents (some agentId) a2 }, events)
      | none => (s, events)
  | .threadCreated id name participants summary creatorId isClosed messages =>
      let t : Thread :=
        { id := id, name := name, participants := participants,
          summary := summary, creatorId := creatorId,
          isClosed := isClosed, unread := some 0 }
      ({ s with
         threads := setAssoc s.threads id t,
         messages := setAssoc s.messages id (messages.getD []) }, events)
  | .messageSent threadId message =>
      match lookupAssoc s.messages threadId with
      | none => (s, events)
      | some ms =>
          let s1 := { s with messages := setAssoc s.messages threadId (ms ++ [message]) }
          match lookupAssoc s1.threads threadId with
          | none => (s1, events)
          | some t =>
              let t2 := { t with unread := some (t.unread.getD 0 + 1) }
              ({ s1 with threads := setAssoc s1.threads threadId t2 }, events)
  | .unknown _ => (s, events)

/-- `CoralSession.send`: serializes and transmits the payload only when the
`connected` flag is set and the socket readyState is `OPEN`; otherwise does
nothing.  The returned list holds the frames actually handed to the socket
(the payload is embedded as its serialized form). -/
def send (s : SessionState) (payload : String) : SessionState × List String :=
  if s.connected = true ∧ s.readyState = some wsOPEN then (s, [payload]) else (s, [])

/-- The unread counter the session records for a thread id (`0` when the
thread is absent or its optional counter unset, matching
`thread.unread || 0`). -/
def unreadOf (s : SessionState) (tid : String) : Nat :=
  match lookupAssoc s.threads tid with
  | some t => t.unread.getD 0
  | none => 0

end CoralSession

/-- Events emitted by `CoralSessionManager` (`this.emit` call sites). -/
inductive ManagerEvent where
  | agentRequest (request : AgentRequest)
  | userResponse (id : String) (value : String)
  | agentAnswer (id : String) (answer : String)
  | sessionMessage (sessionId : String) (data : CoralMessage)
  | sessionClosed (sessionId : String)
deriving DecidableEq

/-- The mutable state of the `CoralSessionManager`: the session directory
and the agent-request store. -/
structure ManagerState where
  sessions : List (String × SessionState)
  agentRequests : List (String × AgentRequest)
deriving DecidableEq

namespace CoralSessionManager

/-- `CoralSessionManager.getSession`. -/
def getSession (st : ManagerState) (sessionId : String) : Option SessionState :=
  lookupAssoc st.sessions sessionId

/-- `CoralSessionManager.createAgentRequest`.  `crypto.randomUUID()` and
`new Date()` are nondeterministic inputs of the call, passed explicitly as
`freshId` and `now`.  Returns the updated store, the new record, and the
emitted events. -/
def createAgentRequest (st : ManagerState) (freshId : String)
    (sessionId agentId request : String) (now : Nat) :
    ManagerState × AgentRequest × List ManagerEvent :=
  let agentRequest : AgentRequest :=
    { id := freshId, sessionId := sessionId, agentId := agentId,
      agentRequest := request, userQuestion := none, agentAnswer := none,
      timestamp := now }
  ({ st with agentRequests := setAssoc st.agentRequests freshId agentRequest },
   agentRequest, [ManagerEvent.agentRequest agentRequest])

/-- `CoralSessionManager.getAgentRequest`. -/
def getAgentRequest (st : ManagerState) (requestId : String) : Option AgentRequest :=
  lookupAssoc st.agentRequests requestId

/-- `CoralSessionManager.respondToAgent`: throws (embedded as
`Except.error`, leaving the store untouched and emitting nothing) when the
id is unknown; otherwise writes the user's answer onto the stored record
(field `userQuestion`), emits `userResponse`, and returns the updated
record. -/
def respondToAgent (st : ManagerState) (requestId response : String) :
    ManagerState × List ManagerEvent × Except String AgentRequest :=
  match lookupAssoc st.agentRequests requestId with
  | none => (st, [], Except.error ("Request " ++ requestId ++ " not found"))
  | some request =>
      let updated := { request with userQuestion := some response }
      ({ st with agentRequests := setAssoc st.agentRequests requestId updated },
       [ManagerEvent.userResponse requestId response], Except.ok updated)

/-- `CoralSessionManager.completeAgentRequest`: no-op when the id is
unknown; otherwise records the agent's final answer and emits
`agentAnswer`.  The 60-second delayed `agentRequests.delete` is a timer
whose later firing no claim concerns; it is not part of this step. -/
def completeAgentRequest (st : ManagerState) (requestId answer : String) :
    ManagerState × List ManagerEvent :=
  match lookupAssoc st.agentRequests requestId with
  | none => (st, [])
  | some request =>
      let updated := { request with agentAnswer := some answer }
      ({ st with agentRequests := setAssoc st.agentRequests requestId updated },
       [ManagerEvent.agentAnswer requestId answer])

/-- The registry-level occurrences that mutate the session directory:
a successful `createSession` registering a new link under its id
(`this.sessions.set(sessionId, session)`), and a link's `closed` event
firing its cleanup handler (`this.sessions.delete(sessionId)`; the
accompanying `sessionClosed` emission touches no state). -/
inductive RegistryEvent where
  | create (sessionId : String) (session : SessionState)
  | closed (sessionId : String)

/-- Effect of one registry-level occurrence on the directory. -/
def registryStep (st : ManagerState) (e : RegistryEvent) : ManagerState :=
  match e with
  | .create sid s => { st with sessions := setAssoc st.sessions sid s }
  | .closed sid => { st with sessions := eraseAssoc st.sessions sid }

/-- A sequence of registry-level occurrences, applied in order. -/
def registryRun (st : ManagerState) (es : List RegistryEvent) : ManagerState :=
  es.foldl registryStep st

/-- Whether a registry occurrence registers a new link under `sid`. -/
def isCreateFor (sid : String) : RegistryEvent → Bool
  | .create s _ => s = sid
  | .closed _ => false

end CoralSessionManager

/-- Server-to-client events of the user-input Socket.IO namespace
(`ServerToClientEvents` in `socketHandlers.ts`). -/
inductive ServerEvent where
  | agent_request (request : AgentRequest)
  | agent_answer (id : String) (answer : String)
  | session_update (data : CoralMessage)
  | error (message : String)
deriving DecidableEq

namespace RelayGateway

/-- The room-membership table of the user-input namespace: one record per
(socket id, room name) membership, as maintained by `socket.join` /
`socket.leave`.  Socket.IO rooms are sets, so a table built by joins holds
each record at most once. -/
def roomMembers (rooms : List (String × String)) (room : String) : List String :=
  (rooms.filter (fun p => decide (p.2 = room))).map Prod.fst

/-- The room a session's broadcasts target: `"session:" + sessionId`. -/
def sessionRoom (sessionId : String) : String :=
  "session:" ++ sessionId

/-- The `user_response` handler (`socketHandlers.ts`): calls
`respondToAgent`; on success broadcasts one `agent_answer` to every socket
in the request's session room (the sender included when joined); on failure
emits one `error` event to the originating socket only.  Returns the
updated manager state and the deliveries as (socket id, event) pairs. -/
def handleUserResponse (st : ManagerState) (rooms : List (String × String))
    (sender : String) (id value : String) :
    ManagerState × List (String × ServerEvent) :=
  match CoralSessionManager.respondToAgent st id value with
  | (st2, _, Except.ok request) =>
      (st2, (roomMembers rooms (sessionRoom request.sessionId)).map
        (fun c => (c, ServerEvent.agent_answer id value)))
  | (st2, _, Except.error msg) =>
      (st2, [(sender, ServerEvent.error msg)])

/-- Number of deliveries a given socket receives in a delivery list. -/
def deliveredCount (out : List (String × ServerEvent)) (c : String) : Nat :=
  (out.filter (fun d => decide (d.1 = c))).length

/-- Number of membership records joining socket `c` to `room`. -/
def joinedCount (rooms : List (String × String)) (room c : String) : Nat :=
  (rooms.filter (fun p => decide (p.1 = c ∧ p.2 = room))).length

end RelayGateway

namespace ToolRoutes

/-- Result of a tool-route HTTP handler, as status plus JSON body field. -/
inductive ToolResult where
  | badRequest (error : String)
  | ok (message : String)
deriving DecidableEq

/-- The `user-input-respond` handler (`toolRoutes.ts`): 400 when `response`
is missing (the empty string embeds a missing/falsy body field); with a
`requestId` it completes that request; without one it creates a request
with an empty question and immediately completes it.  Returns the updated
manager state, the manager events emitted in order, and the HTTP result.
`freshId`/`now` are the `crypto.randomUUID()` / `new Date()` inputs used
when a request is created. -/
def handleUserInputRespond (st : ManagerState) (freshId : String) (now : Nat)
    (sessionId agentId : String) (response : String) (requestId : Option String) :
    ManagerState × List ManagerEvent × ToolResult :=
  if response = "" then
    (st, [], ToolResult.badRequest "Response is required")
  else
    match requestId with
    | some rid =>
        let (st2, evs) := CoralSessionManager.completeAgentRequest st rid response
        (st2, evs, ToolResult.ok "Response sent successfully")
    | none =>
        let (st1, request, evs1) :=
          CoralSessionManager.createAgentRequest st freshId sessionId agentId "" now
        let (st2, evs2) :=
          CoralSessionManager.completeAgentRequest st1 request.id response
        (st2, evs1 ++ evs2, ToolResult.ok "Response sent successfully")

/-- The 5-minute user-response timeout of the `user-input-request` handler
(`toolRoutes.ts`), in milliseconds. -/
def userResponseTimeoutMs : Nat := 300000

/-- How the promise inside the `user-input-request` handler settles:
`resolve(data.value)` or `reject(new Error(...))`. -/
inductive WaitOutcome where
  | resolved (value : String)
  | rejected (message : String)
deriving DecidableEq

/-- The observable state of one `user-input-request` handler invocation
while it waits: whether its `handleResponse` listener is still subscribed
on the manager's `userResponse` event, whether its `setTimeout` timer is
still scheduled, and how its promise has settled (if at all). -/
structure WaitState where
  listenerRegistered : Bool
  timerActive : Bool
  settled : Option WaitOutcome
deriving DecidableEq

/-- Occurrences the waiting handler can observe: a `userResponse` event
emitted on the manager, or its own timer firing (which happens
`userResponseTimeoutMs` after registration unless cleared). -/
inductive WaitEvent where
  | userResponse (id : String) (value : String)
  | timeoutFired
deriving DecidableEq

/-- State right after the handler registers its listener and timer. -/
def initWait : WaitState :=
  { listenerRegistered := true, timerActive := true, settled := none }

/-- A promise settles only once; later resolve/reject calls are no-ops. -/
def settleOnce (s : Option WaitOutcome) (o : WaitOutcome) : Option WaitOutcome :=
  match s with
  | none => some o
  | some prior => some prior

/-- One observable occurrence, as the handler's code reacts to it
(`toolRoutes.ts`): `handleResponse` runs while subscribed, and on a
matching id clears the timer, removes itself, and resolves; the timeout
callback rejects with `"User response timeout"` but does not remove the
listener. -/
def waitStep (requestId : String) (s : WaitState) (e : WaitEvent) : WaitState :=
  match e with
  | .userResponse id value =>
      if s.listenerRegistered then
        if id = requestId then
          { listenerRegistered := false, timerActive := false,
            settled := settleOnce s.settled (WaitOutcome.resolved value) }
        else s
      else s
  | .timeoutFired =>
      if s.timerActive then
        { s with
          timerActive := false,
          settled := settleOnce s.settled (WaitOutcome.rejected "User response timeout") }
      else s

/-- The waiting handler observing a sequence of occurrences in order. -/
def waitRun (requestId : String) (es : List WaitEvent) : WaitState :=
  es.foldl (waitStep requestId) initWait

end ToolRoutes

/-- A manager at process start: no sessions, no requests. -/
def emptyManager : ManagerState :=
  { sessions := [], agentRequests := [] }

/-- Fixture: a pending agent request. -/
def reqW : AgentRequest :=
  { id := "r1", sessionId := "s1", agentId := "a1",
    agentRequest := "pick a color", userQuestion := none, agentAnswer := none,
    timestamp := 0 }

/-- Fixture: a manager holding the one pending request `reqW`. -/
def mgrW : ManagerState :=
  { sessions := [], agentRequests := [("r1", reqW)] }

/-- Fixture: a room table with two sockets in session `s1`'s room and one in
session `s2`'s room. -/
def roomsW : List (String × String) :=
  [("u1", "session:s1"), ("u2", "session:s1"), ("u3", "session:s2")]

/-- Fixture: a session whose socket has closed (`connected` reset). -/
def sessW : SessionState :=
  { sessionId := "s1", connected := false, readyState := some wsOPEN,
    agentId := none, agents := [], threads := [], messages := [] }

/-- Fixture: an inbound protocol message. -/
def msgW : Message :=
  { id := "m1", threadId := "t1", senderId := "a1", content := "hi",
    timestamp := "0", type := none }

/-- Fixture: thread `t1` as carried by a `ThreadList` snapshot frame. -/
def wireW : WireThread :=
  { id := "t1", name := "T", participants := [], summary := none,
    creatorId := "a1", isClosed := false, unread := none, messages := none }

/-- Fixture: `reqW` as updated by a user answer `"blue"`. -/
def reqWAnswered : AgentRequest :=
  { reqW with userQuestion := some "blue" }

/-- Fixture: `mgrW` after its one request has been answered by the user. -/
def mgrWAnswered : ManagerState :=
  { mgrW with agentRequests := setAssoc mgrW.agentRequests "r1" reqWAnswered }

/-- Session state after a `ThreadCreated` frame for thread `t1`. -/
def c4s1 : SessionState :=
  (CoralSession.handleMessage sessW
    (CoralMessage.threadCreated "t1" "T" [] none "a1" false none)).1

/-- `c4s1` after a `MessageSent` frame for thread `t1`. -/
def c4s2 : SessionState :=
  (CoralSession.handleMessage c4s1 (CoralMessage.messageSent "t1" msgW)).1

/-- `c4s2` after a `ThreadList` snapshot frame still listing thread `t1`. -/
def c4s3 : SessionState :=
  (CoralSession.handleMessage c4s2 (CoralMessage.threadList [wireW])).1

section AssocMapLemmas

variable {κ α : Type} [DecidableEq κ]

theorem lookupAssoc_setAssoc_self (m : List (κ × α)) (k : κ) (v : α) :
    lookupAssoc (setAssoc m k v) k = some v := by
  induction m with
  | nil => simp [setAssoc, lookupAssoc]
  | cons p rest ih =>
    by_cases h : p.1 = k
    · simp [setAssoc, h, lookupAssoc]
    · simp [setAssoc, h, lookupAssoc, ih]

theorem lookupAssoc_setAssoc_other (m : List (κ × α)) (k k' : κ) (v : α)
    (h : k' ≠ k) : lookupAssoc (setAssoc m k v) k' = lookupAssoc m k' := by
  induction m with
  | nil => simp [setAssoc, lookupAssoc, Ne.symm h]
  | cons p rest ih =>
    by_cases hp : p.1 = k
    · subst hp
      simp [setAssoc, lookupAssoc, Ne.symm h]
    · simp only [setAssoc, hp, if_false, lookupAssoc]
      by_cases hk : p.1 = k'
      · simp [hk]
      · simp [hk, ih]

theorem lookupAssoc_eraseAssoc_self (m : List (κ × α)) (k : κ) :
    lookupAssoc (eraseAssoc m k) k = none := by
  induction m with
  | nil => simp [eraseAssoc, lookupAssoc]
  | cons p rest ih =>
    by_cases h : p.1 = k
    · simp only [eraseAssoc, List.filter] at ih ⊢
      simpa [h] using ih
    · simp only [eraseAssoc, List.filter] at ih ⊢
      simpa [lookupAssoc, h] using ih

theorem lookupAssoc_eraseAssoc_other (m : List (κ × α)) (k k' : κ)
    (h : k' ≠ k) : lookupAssoc (eraseAssoc m k) k' = lookupAssoc m k' := by
  induction m with
  | nil => simp [eraseAssoc]
  | cons p rest ih =>
    simp only [eraseAssoc, List.filter] at ih ⊢
    by_cases hp : p.1 = k
    · subst hp
      simpa [lookupAssoc, Ne.symm h] using ih
    · by_cases hk : p.1 = k'
      · simp [lookupAssoc, hp, hk, h]
      · simpa [lookupAssoc, hp, hk] using ih

end AssocMapLemmas

/-- Claim C1 (evaluation of the code at the failing scenario): a
`user-input-request` wait whose request id `req-1` never receives a
matching `userResponse` is still pending beforehand (it cannot settle
earlier), and when its 5-minute timer (`userResponseTimeoutMs`) fires the
promise settles with the timeout-specific rejection — yet the
`handleResponse` listener registered by that call is still subscribed on
the store afterwards, because the timeout path never calls
`removeListener`. -/
theorem c1_timeout_leaves_listener :
    (ToolRoutes.waitRun "req-1" [ToolRoutes.WaitEvent.userResponse "other" "x"]).settled = none
    ∧ (ToolRoutes.waitRun "req-1"
        [ToolRoutes.WaitEvent.userResponse "other" "x",
         ToolRoutes.WaitEvent.timeoutFired]).settled
        = some (ToolRoutes.WaitOutcome.rejected "User response timeout")
    ∧ (ToolRoutes.waitRun "req-1"
        [ToolRoutes.WaitEvent.userResponse "other" "x",
         ToolRoutes.WaitEvent.timeoutFired]).listenerRegistered = true := by
  refine ⟨by decide, by decide, by decide⟩

/-- Claim C8: `send` on a link whose `connected` flag is down transmits
nothing, returns normally, and leaves the link state unchanged. -/
theorem c8_send_noop_when_disconnected (s : SessionState) (payload : String)
    (h : s.connected = false) :
    CoralSession.send s payload = (s, []) := by
  simp [CoralSession.send, h]

/-- Claim C8 witness: a concrete disconnected link drops a concrete payload. -/
theorem c8_send_witness : CoralSession.send sessW "frame" = (sessW, []) :=
  c8_send_noop_when_disconnected sessW "frame" rfl

/-- Claim C9: a `MessageSent` frame whose `threadId` has no entry in the
session's messages map is dropped: the state is returned unchanged and the
only emission is the generic re-emission of the frame. -/
theorem c9_messageSent_unknown_thread_dropped (s : SessionState)
    (threadId : String) (msg : Message)
    (h : lookupAssoc s.messages threadId = none) :
    CoralSession.handleMessage s (CoralMessage.messageSent threadId msg)
      = (s, [SessionEvent.message (CoralMessage.messageSent threadId msg)]) := by
  simp [CoralSession.handleMessage, h]

/-- Claim C9 witness: a concrete `MessageSent` for an untracked thread
leaves a concrete session untouched. -/
theorem c9_messageSent_witness :
    CoralSession.handleMessage sessW (CoralMessage.messageSent "t9" msgW)
      = (sessW, [SessionEvent.message (CoralMessage.messageSent "t9" msgW)]) :=
  c9_messageSent_unknown_thread_dropped sessW "t9" msgW rfl

/-- Claim C7: every parsed frame is re-emitted verbatim as the (single)
generic `message` event, whatever its tag, and a frame with an unknown tag
causes no state mutation at all. -/
theorem c7_generic_reemission (s : SessionState) (data : CoralMessage)
    (tag : String) :
    (CoralSession.handleMessage s data).2 = [SessionEvent.message data]
    ∧ (CoralSession.handleMessage s (CoralMessage.unknown tag)).1 = s := by
  refine ⟨?_, rfl⟩
  cases data <;> simp only [CoralSession.handleMessage] <;> (repeat' split) <;> rfl

/-- Claim C6: `respondToAgent` fails with the not-found error exactly when
the request id is unknown to the store — leaving the store unchanged and
emitting nothing — and otherwise records the user's answer on the stored
record (its `userQuestion` field), emits one `userResponse` event, and
returns the updated record. -/
theorem c6_respondToAgent_spec (st : ManagerState) (rid resp : String) :
    (CoralSessionManager.getAgentRequest st rid = none →
      CoralSessionManager.respondToAgent st rid resp
        = (st, [], Except.error ("Request " ++ rid ++ " not found")))
    ∧ (∀ r, CoralSessionManager.getAgentRequest st rid = some r →
        CoralSessionManager.respondToAgent st rid resp
          = ({ st with agentRequests :=
                setAssoc st.agentRequests rid ({ r with userQuestion := some resp }) },
             [ManagerEvent.userResponse rid resp],
             Except.ok ({ r with userQuestion := some resp }))) := by
  constructor
  · intro h
    simp only [CoralSessionManager.getAgentRequest] at h
    simp [CoralSessionManager.respondToAgent, h]
  · intro r h
    simp only [CoralSessionManager.getAgentRequest] at h
    simp [CoralSessionManager.respondToAgent, h]

/-- Claim C6 witness: on a concrete store holding only request `r1`, an
unknown id fails leaving the store as it was, and `r1` is answered and
returned updated. -/
theorem c6_respondToAgent_witness :
    CoralSessionManager.respondToAgent mgrW "zzz" "blue"
      = (mgrW, [], Except.error ("Request " ++ "zzz" ++ " not found"))
    ∧ CoralSessionManager.respondToAgent mgrW "r1" "blue"
      = (mgrWAnswered, [ManagerEvent.userResponse "r1" "blue"],
         Except.ok reqWAnswered) :=
  ⟨(c6_respondToAgent_spec mgrW "zzz" "blue").1 (by decide),
   (c6_respondToAgent_spec mgrW "r1" "blue").2 reqW (by decide)⟩

/-- Claim C3 (counterexample): `createAgentRequest` stores the new request
under its fresh id only.  Were it also stored under a key determined by
`(sessionId, agentId)`, that key would retrieve it in any run with the
same session and agent; but two runs on the empty store that differ only
in the fresh id share no retrieving key at all. -/
theorem c3_counterexample :
    ¬ ∃ k : String,
      (CoralSessionManager.getAgentRequest
        (CoralSessionManager.createAgentRequest emptyManager "k1" "s1" "a1" "q" 0).1 k).isSome = true
      ∧ (CoralSessionManager.getAgentRequest
        (CoralSessionManager.createAgentRequest emptyManager "k2" "s1" "a1" "q" 0).1 k).isSome = true := by
  rintro ⟨k, h1, h2⟩
  by_cases e1 : "k1" = k
  · by_cases e2 : "k2" = k
    · exact absurd (e1.trans e2.symm) (by decide)
    · simp [CoralSessionManager.getAgentRequest,
        CoralSessionManager.createAgentRequest, emptyManager,
        setAssoc, lookupAssoc, e2] at h2
  · simp [CoralSessionManager.getAgentRequest,
      CoralSessionManager.createAgentRequest, emptyManager,
      setAssoc, lookupAssoc, e1] at h1

/-- Claim C3 (amended): `createAgentRequest` stores the new record under its
fresh id only: afterwards the record is retrievable by that id, while
lookup under every other key — in particular any key derived from
`(sessionId, agentId)` — is exactly as before the call. -/
theorem c3_amended_stored_by_id_only (st : ManagerState)
    (fid sid aid q : String) (now : Nat) :
    (CoralSessionManager.getAgentRequest
        (CoralSessionManager.createAgentRequest st fid sid aid q now).1 fid
      = some (CoralSessionManager.createAgentRequest st fid sid aid q now).2.1)
    ∧ (∀ k, k ≠ fid →
        CoralSessionManager.getAgentRequest
            (CoralSessionManager.createAgentRequest st fid sid aid q now).1 k
          = CoralSessionManager.getAgentRequest st k) := by
  constructor
  · simp [CoralSessionManager.getAgentRequest,
      CoralSessionManager.createAgentRequest, lookupAssoc_setAssoc_self]
  · intro k hk
    simp [CoralSessionManager.getAgentRequest,
      CoralSessionManager.createAgentRequest,
      lookupAssoc_setAssoc_other _ _ _ _ hk]

/-- Claim C3 (amended) witness: after a concrete `create` on the empty
store, lookup under the agent-derived key retrieves nothing. -/
theorem c3_amended_witness :
    CoralSessionManager.getAgentRequest
      (CoralSessionManager.createAgentRequest emptyManager "k1" "s1" "a1" "q" 0).1 "s1:a1"
      = none :=
  ((c3_amended_stored_by_id_only emptyManager "k1" "s1" "a1" "q" 0).2
    "s1:a1" (by decide)).trans (by decide)

/-- Claim C10: the `user-input-respond` handler, given a non-empty
`response` body and no `requestId`, creates a fresh request whose question
text is the empty string and emits the `agentRequest` event carrying that
record before the `agentAnswer` event for the same record. -/
theorem c10_respond_without_requestId (st : ManagerState) (fid : String)
    (now : Nat) (sid aid resp : String) (h : resp ≠ "") :
    (ToolRoutes.handleUserInputRespond st fid now sid aid resp none).2.1
      = [ManagerEvent.agentRequest
           { id := fid, sessionId := sid, agentId := aid, agentRequest := "",
             userQuestion := none, agentAnswer := none, timestamp := now },
         ManagerEvent.agentAnswer fid resp] := by
  simp [ToolRoutes.handleUserInputRespond, h,
    CoralSessionManager.createAgentRequest,
    CoralSessionManager.completeAgentRequest, lookupAssoc_setAssoc_self]

/-- Claim C10 witness: a concrete announcement-style respond call emits the
`agentRequest` for the fresh empty-question record, then its `agentAnswer`. -/
theorem c10_respond_witness :
    (ToolRoutes.handleUserInputRespond emptyManager "k1" 0 "s1" "a1" "done" none).2.1
      = [ManagerEvent.agentRequest
           { id := "k1", sessionId := "s1", agentId := "a1", agentRequest := "",
             userQuestion := none, agentAnswer := none, timestamp := 0 },
         ManagerEvent.agentAnswer "k1" "done"] :=
  c10_respond_without_requestId emptyManager "k1" 0 "s1" "a1" "done" (by decide)

/-- Claim C4 (counterexample): the unread counter can decrease across
inbound protocol events.  Concretely: after `ThreadCreated t1` and one
`MessageSent` for `t1` the counter reads 1, but a subsequent `ThreadList`
snapshot still listing `t1` stores the thread with `unread` overridden to
0 — a decrease from 1 to 0. -/
theorem c4_counterexample :
    CoralSession.unreadOf c4s2 "t1" = 1 ∧ CoralSession.unreadOf c4s3 "t1" = 0 := by
  refine ⟨by decide, by decide⟩

/-- Claim C4 (amended): restricted to message-sent events the counter is
monotone: a `MessageSent` frame never decreases any thread's unread
counter, and increments the target thread's counter by exactly one when
the thread is tracked in both the messages and threads maps.  (`ThreadList`
and `ThreadCreated` frames, by contrast, reset counters to 0.) -/
theorem c4_amended_messageSent_monotone (s : SessionState) (threadId : String)
    (msg : Message) (tid : String) :
    (CoralSession.unreadOf s tid ≤
      CoralSession.unreadOf
        (CoralSession.handleMessage s (CoralMessage.messageSent threadId msg)).1 tid)
    ∧ ((lookupAssoc s.messages threadId).isSome = true →
       (lookupAssoc s.threads threadId).isSome = true →
        CoralSession.unreadOf
          (CoralSession.handleMessage s (CoralMessage.messageSent threadId msg)).1 threadId
          = CoralSession.unreadOf s threadId + 1) := by
  cases hm : lookupAssoc s.messages threadId with
  | none =>
    constructor
    · simp [CoralSession.handleMessage, hm]
    · intro h1 _
      simp at h1
  | some ms =>
    cases ht : lookupAssoc s.threads threadId with
    | none =>
      constructor
      · simp [CoralSession.handleMessage, hm, ht, CoralSession.unreadOf]
      · intro _ h2
        simp at h2
    | some t =>
      constructor
      · by_cases hq : tid = threadId
        · subst hq
          simp [CoralSession.handleMessage, hm, ht, CoralSession.unreadOf,
            lookupAssoc_setAssoc_self]
        · simp [CoralSession.handleMessage, hm, ht, CoralSession.unreadOf,
            lookupAssoc_setAssoc_other _ _ _ _ hq]
      · intro _ _
        simp [CoralSession.handleMessage, hm, ht, CoralSession.unreadOf,
          lookupAssoc_setAssoc_self]

/-- Claim C4 (amended) witness: on the concrete session tracking thread
`t1`, one concrete `MessageSent` raises the counter by exactly one. -/
theorem c4_amended_witness :
    CoralSession.unreadOf
      (CoralSession.handleMessage c4s1 (CoralMessage.messageSent "t1" msgW)).1 "t1"
      = CoralSession.unreadOf c4s1 "t1" + 1 :=
  (c4_amended_messageSent_monotone c4s1 "t1" msgW "t1").2 (by decide) (by decide)

/-- Processing a link's `closed` event removes its session from the
directory: `getSession` on that id answers `none` immediately after. -/
theorem getSession_registryStep_closed (st : ManagerState) (sid : String) :
    CoralSessionManager.getSession
      (CoralSessionManager.registryStep st
        (CoralSessionManager.RegistryEvent.closed sid)) sid = none := by
  simp [CoralSessionManager.getSession, CoralSessionManager.registryStep,
    lookupAssoc_eraseAssoc_self]

/-- A session id absent from the directory stays absent under any run of
registry occurrences that never registers that id again. -/
theorem getSession_none_preserved (sid : String) :
    ∀ (es : List CoralSessionManager.RegistryEvent) (st : ManagerState),
      CoralSessionManager.getSession st sid = none →
      (∀ e ∈ es, CoralSessionManager.isCreateFor sid e = false) →
      CoralSessionManager.getSession (CoralSessionManager.registryRun st es) sid = none := by
  intro es
  induction es with
  | nil => intro st h _; exact h
  | cons e rest ih =>
    intro st h hall
    have hrest : ∀ e2 ∈ rest, CoralSessionManager.isCreateFor sid e2 = false :=
      fun e2 he2 => hall e2 (List.mem_cons_of_mem _ he2)
    have hstep : CoralSessionManager.getSession
        (CoralSessionManager.registryStep st e) sid = none := by
      cases e with
      | create sid2 s =>
        have hne : sid2 ≠ sid := by
          simpa [CoralSessionManager.isCreateFor] using hall _ (List.mem_cons_self _ _)
        simpa [CoralSessionManager.getSession, CoralSessionManager.registryStep,
          lookupAssoc_setAssoc_other _ _ _ _ (Ne.symm hne)] using h
      | closed sid2 =>
        by_cases hq : sid = sid2
        · subst hq
          simp [CoralSessionManager.getSession, CoralSessionManager.registryStep,
            lookupAssoc_eraseAssoc_self]
        · simpa [CoralSessionManager.getSession, CoralSessionManager.registryStep,
            lookupAssoc_eraseAssoc_other _ _ _ hq] using h
    exact ih (CoralSessionManager.registryStep st e) hstep hrest

/-- Claim C2: once a session's link emits its `closed` event, the cleanup
handler removes the session from the directory, and `getSession` on its id
answers `none` from then on — across any continuation of registry activity
that does not register a new session under the very same id. -/
theorem c2_closed_removes_session (st : ManagerState)
    (pre post : List CoralSessionManager.RegistryEvent) (sid : String)
    (h : ∀ e ∈ post, CoralSessionManager.isCreateFor sid e = false) :
    CoralSessionManager.getSession
      (CoralSessionManager.registryRun st
        (pre ++ CoralSessionManager.RegistryEvent.closed sid :: post)) sid = none := by
  have h1 : CoralSessionManager.registryRun st
        (pre ++ CoralSessionManager.RegistryEvent.closed sid :: post)
      = CoralSessionManager.registryRun
          (CoralSessionManager.registryStep (CoralSessionManager.registryRun st pre)
            (CoralSessionManager.RegistryEvent.closed sid)) post := by
    simp [CoralSessionManager.registryRun, List.foldl_append]
  rw [h1]
  exact getSession_none_preserved sid post _
    (getSession_registryStep_closed (CoralSessionManager.registryRun st pre) sid) h

/-- Claim C2 witness: in a concrete run — register `s1`, close `s1`,
register an unrelated `s2` — the directory no longer answers for `s1`. -/
theorem c2_closed_witness :
    CoralSessionManager.getSession
      (CoralSessionManager.registryRun emptyManager
        [CoralSessionManager.RegistryEvent.create "s1" sessW,
         CoralSessionManager.RegistryEvent.closed "s1",
         CoralSessionManager.RegistryEvent.create "s2" sessW]) "s1" = none :=
  c2_closed_removes_session emptyManager
    [CoralSessionManager.RegistryEvent.create "s1" sessW]
    [CoralSessionManager.RegistryEvent.create "s2" sessW] "s1"
    (by intro e he; simp only [List.mem_singleton] at he; subst he; rfl)

/-- Broadcasting one event to a room delivers to each socket exactly as
many copies as that socket has membership records for the room. -/
theorem deliveredCount_broadcast (rooms : List (String × String))
    (room c : String) (ev : ServerEvent) :
    RelayGateway.deliveredCount
        ((RelayGateway.roomMembers rooms room).map (fun m => (m, ev))) c
      = RelayGateway.joinedCount rooms room c := by
  induction rooms with
  | nil => rfl
  | cons p rest ih =>
    simp only [RelayGateway.deliveredCount, RelayGateway.roomMembers,
      RelayGateway.joinedCount, List.filter_cons] at ih ⊢
    by_cases h2 : p.2 = room
    · by_cases h1 : p.1 = c
      · simpa [h1, h2, List.filter_cons] using ih
      · simpa [h1, h2, List.filter_cons] using ih
    · have : ¬(p.1 = c ∧ p.2 = room) := fun hc => h2 hc.2
      simpa [h2, this] using ih

/-- A socket with no membership record for a room receives no deliveries
counted toward that room. -/
theorem joinedCount_eq_zero_of_not_mem (rooms : List (String × String))
    (room c : String) (h : (c, room) ∉ rooms) :
    RelayGateway.joinedCount rooms room c = 0 := by
  induction rooms with
  | nil => rfl
  | cons p rest ih =>
    have hrest : (c, room) ∉ rest := fun e => h (List.mem_cons_of_mem _ e)
    have hp : ¬(p.1 = c ∧ p.2 = room) := by
      rintro ⟨e1, e2⟩
      apply h
      have : p = (c, room) := by
        cases p
        cases e1
        cases e2
        rfl
      rw [← this]
      exact List.mem_cons_self _ _
    have step : RelayGateway.joinedCount (p :: rest) room c
        = RelayGateway.joinedCount rest room c := by
      simp [RelayGateway.joinedCount, List.filter_cons, hp]
    rw [step]
    exact ih hrest

/-- In a duplicate-free room table, a joined socket has exactly one
membership record for its room. -/
theorem joinedCount_eq_one_of_mem (rooms : List (String × String))
    (room c : String) (hnd : rooms.Nodup) (hmem : (c, room) ∈ rooms) :
    RelayGateway.joinedCount rooms room c = 1 := by
  induction rooms with
  | nil => cases hmem
  | cons p rest ih =>
    rcases List.mem_cons.mp hmem with he | hm
    · have hrest : (c, room) ∉ rest := by
        rw [he]
        exact (List.nodup_cons.mp hnd).1
      have hp : p.1 = c ∧ p.2 = room := by
        rw [← he]
        exact ⟨rfl, rfl⟩
      have step : RelayGateway.joinedCount (p :: rest) room c
          = RelayGateway.joinedCount rest room c + 1 := by
        simp [RelayGateway.joinedCount, List.filter_cons, hp]
      rw [step, joinedCount_eq_zero_of_not_mem rest room c hrest]
    · have hnd2 := (List.nodup_cons.mp hnd).2
      have hp : ¬(p.1 = c ∧ p.2 = room) := by
        rintro ⟨e1, e2⟩
        have hpe : p = (c, room) := by
          cases p
          cases e1
          cases e2
          rfl
        rw [hpe] at hnd
        exact (List.nodup_cons.mp hnd).1 hm
      have step : RelayGateway.joinedCount (p :: rest) room c
          = RelayGateway.joinedCount rest room c := by
        simp [RelayGateway.joinedCount, List.filter_cons, hp]
      rw [step]
      exact ih hnd2 hm

/-- Claim C5: a `user_response` carrying a request id known to the store
triggers exactly one `agent_answer` broadcast: every delivery carries that
answer; each socket receives one delivery per membership record in the
request's session room (the sender included when joined, hence exactly one
each in a duplicate-free room table); and sockets joined only to other
rooms receive none. -/
theorem c5_user_response_broadcast (st : ManagerState)
    (rooms : List (String × String)) (sender id value : String)
    (r : AgentRequest)
    (hreq : CoralSessionManager.getAgentRequest st id = some r)
    (hnd : rooms.Nodup) :
    (∀ d ∈ (RelayGateway.handleUserResponse st rooms sender id value).2,
        d.2 = ServerEvent.agent_answer id value)
    ∧ (∀ c, RelayGateway.deliveredCount
            (RelayGateway.handleUserResponse st rooms sender id value).2 c
          = RelayGateway.joinedCount rooms (RelayGateway.sessionRoom r.sessionId) c)
    ∧ (∀ c, (c, RelayGateway.sessionRoom r.sessionId) ∈ rooms →
        RelayGateway.deliveredCount
          (RelayGateway.handleUserResponse st rooms sender id value).2 c = 1) := by
  have hout : (RelayGateway.handleUserResponse st rooms sender id value).2
      = (RelayGateway.roomMembers rooms (RelayGateway.sessionRoom r.sessionId)).map
          (fun c => (c, ServerEvent.agent_answer id value)) := by
    simp only [CoralSessionManager.getAgentRequest] at hreq
    simp [RelayGateway.handleUserResponse, CoralSessionManager.respondToAgent, hreq]
  refine ⟨?_, ?_, ?_⟩
  · intro d hd
    rw [hout] at hd
    rcases List.mem_map.mp hd with ⟨m, _, he⟩
    rw [← he]
  · intro c
    rw [hout]
    exact deliveredCount_broadcast rooms (RelayGateway.sessionRoom r.sessionId) c
      (ServerEvent.agent_answer id value)
  · intro c hc
    rw [hout, deliveredCount_broadcast]
    exact joinedCount_eq_one_of_mem rooms (RelayGateway.sessionRoom r.sessionId) c hnd hc

/-- Claim C5 witness: with sockets `u1`, `u2` joined to session `s1`'s room
and `u3` joined elsewhere, answering request `r1` delivers exactly one
`agent_answer` to the non-sender `u2`. -/
theorem c5_broadcast_witness :
    RelayGateway.deliveredCount
      (RelayGateway.handleUserResponse mgrW roomsW "u1" "r1" "blue").2 "u2" = 1 :=
  (c5_user_response_broadcast mgrW roomsW "u1" "r1" "blue" reqW
    (by decide) (by decide)).2.2 "u2" (by decide)
